import Mathlib

/-!
Verification development for the mcpr server (src/server/main.py).

The Python source is shallowly embedded in Lean:
* Python strings that undergo character-level transformations are `List Char`;
  strings used only as identifiers stay `String`.
* Filesystem paths are lists of path components measured from the filesystem
  root, so `/ws/a.R` is `["ws", "a.R"]`.
* The filesystem is an explicit value threaded through every handler; the
  external R process, the PATH lookup of the R executable, and stdlib
  services (csv parsing, glob matching, the ggplot style rewriter, which the
  spec declares out of scope) are oracle parameters supplied by the caller.
* `create_r_file` models the open(2)-time traversal of its candidate
  (`osWritePath`): a missing intermediate directory fails the write with
  `CREATE_ERROR`, and a created file lands at the OS-resolved path.  The
  other write handlers record content at the joined candidate path; every
  theorem about them exercises plain, separator-free names, for which the
  joined and the OS-resolved path coincide.
-/

namespace MCPR

/-! ## Character-level string utilities (Python `str` operations) -/

/-- Python `"<-" in code` (substring containment of the two-character
assignment arrow), from `handle_append_r_code` / `handle_write_r_code`. -/
def containsArrow : List Char → Bool
  | [] => false
  | [_] => false
  | a :: b :: rest => (a == '<' && b == '-') || containsArrow (b :: rest)

/-- Python `code.replace("<-", "=")`: left-to-right, non-overlapping
replacement of every occurrence of `<-` by `=`. -/
def replaceArrow : List Char → List Char
  | [] => []
  | [c] => [c]
  | a :: b :: rest =>
    if a == '<' && b == '-' then '=' :: replaceArrow rest
    else a :: replaceArrow (b :: rest)

/-- The guarded rewrite used by both write handlers:
`if "<-" in code: code = code.replace("<-", "=")`. -/
def applyAssignRewrite (code : List Char) : List Char :=
  if containsArrow code then replaceArrow code else code

/-- Python `code.startswith("#")`. -/
def startsWithHash (s : List Char) : Bool :=
  s.head? == some '#'

/-- Python `s.endswith('\n')` for a character list. -/
def endsWithNewline (s : List Char) : Bool :=
  s.getLast? = some '\n'

def splitOnCharAux (sep : Char) : List Char → List Char → List (List Char)
  | [], acc => [acc.reverse]
  | c :: rest, acc =>
    if c == sep then acc.reverse :: splitOnCharAux sep rest []
    else splitOnCharAux sep rest (c :: acc)

/-- Split a string on a separator character (Python `s.split(sep)`). -/
def splitOnChar (sep : Char) (s : String) : List String :=
  (splitOnCharAux sep s.data []).map String.mk

/-- Python `s.endswith(suf)`. -/
def strEndsWith (s suf : String) : Bool :=
  suf.data.isSuffixOf s.data

/-- Python `s.startswith(pre)`. -/
def strStartsWith (s pre : String) : Bool :=
  pre.data.isPrefixOf s.data

/-- Python `s.lower()`. -/
def toLowerStr (s : String) : String :=
  String.mk (s.data.map Char.toLower)

/-! ## Paths -/

/-- A filesystem path as components from the root: `/ws/a.R` is `["ws", "a.R"]`. -/
abbrev FPath := List String

/-- Split a requested name on `/`, dropping empty components, as `pathlib`
does when a name with separators is joined onto a directory. -/
def splitName (s : String) : List String :=
  (splitOnChar '/' s).filter (fun c => c ≠ "")

/-- Python `self.workdir / name`: an absolute name replaces the anchor,
otherwise the components are appended. -/
def joinPath (wd : FPath) (name : String) : FPath :=
  if strStartsWith name "/" then splitName name else wd ++ splitName name

/-- Render a path for error messages, as `str(path)` would. -/
def pathStr (p : FPath) : String :=
  "/" ++ String.intercalate "/" p

/-- Python `Path.with_suffix`: replace the extension of the final component
(the program only ever applies this to `state.json`). -/
def pyWithSuffix (name suf : String) : String :=
  match splitOnChar '.' name with
  | [] => name ++ suf
  | [_] => name ++ suf
  | parts => String.intercalate "." parts.dropLast ++ suf

/-- Embeds `state_file.with_suffix('.tmp')` from `save_state`. -/
def withSuffixTmp (p : FPath) : FPath :=
  p.dropLast ++ [pyWithSuffix (p.getLastD "") ".tmp"]

/-! ## The state record (`state.json`)

Python keeps the state as a JSON dict; the keys the program ever touches
are modelled as optional fields (a key absent from the dict is `none`). -/

structure StateRec where
  workdir : Option String := none
  primary_file : Option String := none
  r_files : Option (List String) := none
  updated_at : Option String := none
  deriving Repr, DecidableEq

/-! ## Filesystem model -/

/-- Content of a file: either bytes parsable as a state-record JSON document,
or raw bytes (script files, exports, corrupt state files). -/
inductive FileData where
  | json (r : StateRec)
  | bytes (s : List Char)
  deriving Repr, DecidableEq

/-- The character content of a file read as text (state records are never
read as script text by the program). -/
def FileData.chars : FileData → List Char
  | .json _ => []
  | .bytes s => s

/-- Embeds `stat().st_size` of the content; state records never appear where the
program asks for a size. -/
def FileData.size : FileData → Nat
  | .json _ => 0
  | .bytes s => s.length

structure FileEntry where
  path : FPath
  data : FileData
  mtime : Int
  deriving Repr, DecidableEq

structure Fs where
  files : List FileEntry
  dirs : List FPath
  symlinks : List (FPath × FPath)
  deriving Repr, DecidableEq

def findFile : List FileEntry → FPath → Option FileEntry
  | [], _ => none
  | e :: rest, p => if e.path = p then some e else findFile rest p

def eraseEntries : List FileEntry → FPath → List FileEntry
  | [], _ => []
  | e :: rest, p => if e.path = p then eraseEntries rest p else e :: eraseEntries rest p

def Fs.lookupFile (fs : Fs) (p : FPath) : Option FileEntry :=
  findFile fs.files p

def Fs.eraseFile (fs : Fs) (p : FPath) : Fs :=
  { fs with files := eraseEntries fs.files p }

def Fs.writeFile (fs : Fs) (p : FPath) (d : FileData) (t : Int) : Fs :=
  { fs with files := eraseEntries fs.files p ++ [⟨p, d, t⟩] }

def Fs.fileExists (fs : Fs) (p : FPath) : Bool :=
  (fs.lookupFile p).isSome

def Fs.dirExists (fs : Fs) (p : FPath) : Bool :=
  fs.dirs.contains p

/-- Python `path.exists()` (a file or a directory at that path). -/
def Fs.pathExists (fs : Fs) (p : FPath) : Bool :=
  fs.fileExists p || fs.dirExists p

/-- Content of the file at `p`, if any. -/
def Fs.readData (fs : Fs) (p : FPath) : Option FileData :=
  (fs.lookupFile p).map FileEntry.data

def lookupLink : List (FPath × FPath) → FPath → Option FPath
  | [], _ => none
  | (s, t) :: rest, p => if s = p then some t else lookupLink rest p

/-- One pass of `Path.resolve()`: walk the components, popping on `..`,
skipping `.`, and substituting symlink targets as they are met.  Fuel bounds
symlink chains; exhaustion models the `RuntimeError` raised on symlink
loops (which `is_safe_path` catches and turns into `False`). -/
def resolveFrom (fs : Fs) : Nat → FPath → List String → Option FPath
  | 0, _, _ => none
  | _ + 1, cur, [] => some cur
  | fuel + 1, cur, seg :: rest =>
    if seg = ".." then resolveFrom fs fuel cur.dropLast rest
    else if seg = "." then resolveFrom fs fuel cur rest
    else
      match lookupLink fs.symlinks (cur ++ [seg]) with
      | some target => resolveFrom fs fuel [] (target ++ rest)
      | none => resolveFrom fs fuel (cur ++ [seg]) rest

/-- Fuel sufficient for any resolution that does not loop through symlinks. -/
def resolveFuel (fs : Fs) (p : FPath) : Nat :=
  p.length + 1 + 40 * (fs.symlinks.foldl (fun a l => a + l.2.length + 1) 0)

/-- Embeds `path.resolve()` (non-strict): `none` models a resolution error. -/
def resolvePath (fs : Fs) (p : FPath) : Option FPath :=
  resolveFrom fs (resolveFuel fs p) [] p

/-- Strict open(2)-style directory walk, as the kernel performs when a file
is opened for writing: every intermediate component (after symlink
substitution) must exist as a directory, `..` steps to the parent, and the
walk ends on an existing directory.  `none` models the `ENOENT`/`ENOTDIR`
failure `write_text` surfaces as an exception. -/
def osResolveDir (fs : Fs) : Nat → FPath → List String → Option FPath
  | 0, _, _ => none
  | _ + 1, cur, [] => if fs.dirExists cur then some cur else none
  | fuel + 1, cur, seg :: rest =>
    if seg = ".." then osResolveDir fs fuel cur.dropLast rest
    else if seg = "." then osResolveDir fs fuel cur rest
    else
      match lookupLink fs.symlinks (cur ++ [seg]) with
      | some target => osResolveDir fs fuel [] (target ++ rest)
      | none =>
        if fs.dirExists (cur ++ [seg]) then osResolveDir fs fuel (cur ++ [seg]) rest
        else none

/-- Where `file_path.write_text` lands: the final name inside the
OS-resolved parent directory.  `none` when open(2) fails (missing
intermediate directory, symlink loop, or a directory already sitting at
the target). -/
def osWritePath (fs : Fs) (p : FPath) : Option FPath :=
  match p.getLast? with
  | none => none
  | some name =>
    match osResolveDir fs (resolveFuel fs p) [] p.dropLast with
    | none => none
    | some d => if fs.dirExists (d ++ [name]) then none else some (d ++ [name])

/-- Python `path.exists()` for a possibly non-normalised candidate: `stat`
walks the intermediate directories strictly and answers `False` on any
traversal failure. -/
def Fs.osExists (fs : Fs) (p : FPath) : Bool :=
  match p.getLast? with
  | none => fs.dirExists []
  | some name =>
    match osResolveDir fs (resolveFuel fs p) [] p.dropLast with
    | none => false
    | some d => fs.pathExists (d ++ [name])

/-- Python `resolved.is_relative_to(workdir)`: the workdir components are a
prefix of the resolved path's components. -/
def isRelTo (p root : FPath) : Bool :=
  root.isPrefixOf p

/-! ## Server state and error conditions -/

/-- The mutable fields of `MCPRServer.__init__` (the `state_dir` field is
always `state_file.dropLast` and is not carried separately). -/
structure Srv where
  workdir : Option FPath
  state_file : Option FPath
  primary_file : String
  deriving Repr, DecidableEq

/-- A structured failure: the `error` dict of a handler result. -/
structure ErrInfo where
  code : String
  message : String
  hints : List String := []
  duration_ms : Option Nat := none
  deriving Repr, DecidableEq

def noWorkdirErr : ErrInfo :=
  { code := "NO_WORKDIR"
    message := "Working directory not set. Use set_workdir first."
    hints := ["Call set_workdir with a directory path"] }

def workdirMissingErr (wd : FPath) : ErrInfo :=
  { code := "WORKDIR_MISSING"
    message := "Working directory " ++ pathStr wd ++ " no longer exists"
    hints := ["Recreate or set a new working directory"] }

def unsafePathErr (filename : String) : ErrInfo :=
  { code := "UNSAFE_PATH"
    message := "File path " ++ filename ++ " is outside working directory" }

/-- Embeds `MCPRServer.ensure_workdir_set`: on success the active workdir is handed
back for the callers that dereference `self.workdir` next. -/
def ensure_workdir_set (srv : Srv) (fs : Fs) : Except ErrInfo FPath :=
  match srv.workdir with
  | none => .error noWorkdirErr
  | some wd => if fs.pathExists wd then .ok wd else .error (workdirMissingErr wd)

/-- Embeds `MCPRServer.is_safe_path`: no workdir set is always unsafe; a resolution
failure is unsafe; otherwise the resolved path must sit under the workdir. -/
def is_safe_path (srv : Srv) (fs : Fs) (path : FPath) : Bool :=
  match srv.workdir with
  | none => false
  | some wd =>
    match resolvePath fs path with
    | none => false
    | some resolved => isRelTo resolved wd

/-! ## State store -/

/-- Embeds `MCPRServer.load_state`: a missing or unparsable state file yields the
empty record. -/
def load_state (srv : Srv) (fs : Fs) : StateRec :=
  match srv.state_file with
  | none => {}
  | some sf =>
    match fs.readData sf with
    | none => {}
    | some (.json r) => r
    | some (.bytes _) => {}

/-- Embeds `MCPRServer.save_state`: dump to `state.tmp` beside the target, then
rename over it.  `fail = true` is the oracle for any exception raised before
the rename completes; the handler then removes the temporary file (if the
failure left one behind) and returns with the target untouched. -/
def save_state (srv : Srv) (fs : Fs) (st : StateRec) (fail : Bool) (now : Int) : Fs :=
  match srv.state_file with
  | none => fs
  | some sf =>
    let tmp := withSuffixTmp sf
    if fail then fs.eraseFile tmp
    else
      let fs1 := fs.writeFile tmp (.json st) now
      match fs1.lookupFile tmp with
      | none => fs1
      | some e => (fs1.eraseFile tmp).writeFile sf e.data e.mtime

/-! ## Directory snapshots and the run diff -/

/-- The name of `p` when it is a direct child of `wd`. -/
def childName (wd : FPath) (p : FPath) : Option String :=
  if p.dropLast = wd then p.getLast? else none

/-- Embeds `MCPRServer.scan_directory_files`: regular files directly inside the
workdir, with modification times (`.mcpr_state` is a directory and is
naturally absent). -/
def scan_directory_files (fs : Fs) (wd : FPath) : List (String × Int) :=
  fs.files.filterMap (fun e => (childName wd e.path).map (fun n => (n, e.mtime)))

/-- Python dict lookup on a snapshot. -/
def lookupSnap : List (String × Int) → String → Option Int
  | [], _ => none
  | (k, v) :: rest, n => if k = n then some v else lookupSnap rest n

/-- The new/modified classification loop of `handle_run_r_script`: for each
`(name, mtime)` of the after-snapshot, a name absent from the before-snapshot
is new, a name present with a strictly greater mtime is modified, and
everything else (including deletions) is dropped. -/
def diffNewModified (before : List (String × Int)) : List (String × Int) → List String × List String
  | [] => ([], [])
  | (name, mtime) :: rest =>
    let r := diffNewModified before rest
    match lookupSnap before name with
    | none => (name :: r.1, r.2)
    | some t0 => if mtime > t0 then (r.1, name :: r.2) else r

/-! ## Process runner -/

/-- What `shutil.which` reports for `Rscript` and `R`. -/
structure REnv where
  rscript : Option String
  r : Option String
  deriving Repr, DecidableEq

/-- Embeds `MCPRServer.find_r_executable`: prefer `Rscript`, fall back to `R`. -/
def find_r_executable (env : REnv) : Option String :=
  match env.rscript with
  | some p => some p
  | none => env.r

/-- Behaviour of the spawned child process, an oracle input. -/
inductive ProcOutcome where
  | completed (exit_code : Int) (stdout stderr : String)
  | timedOut
  | execError (msg : String)
  deriving Repr, DecidableEq

/-- Everything the outside world contributes to one `run_r_command` call. -/
structure RunEnv where
  renv : REnv
  proc : ProcOutcome
  duration_ms : Nat
  deriving Repr, DecidableEq

/-- Result dict of `MCPRServer.run_r_command`. -/
inductive RunRes where
  | ok (exit_code : Int) (stdout stderr : String) (duration_ms : Nat)
  | err (e : ErrInfo)
  deriving Repr, DecidableEq

/-- Embeds `MCPRServer.run_r_command`: fail fast when no R executable is on the
PATH, otherwise report the child's outcome (the argument vector and timeout
are forwarded to the process, whose behaviour is the `env.proc` oracle). -/
def run_r_command (env : RunEnv) (_args : List String) (timeout : Nat) : RunRes :=
  match find_r_executable env.renv with
  | none =>
    .err { code := "R_NOT_FOUND"
           message := "Rscript not found in PATH. Please install R or add Rscript to PATH."
           hints := ["Install R from https://www.r-project.org/",
                     "Ensure Rscript is in your system PATH"] }
  | some _ =>
    match env.proc with
    | .completed c o e => .ok c o e env.duration_ms
    | .timedOut =>
      .err { code := "TIMEOUT"
             message := "R execution timed out after " ++ toString timeout ++ " seconds"
             hints := ["Increase timeout_sec parameter", "Check for infinite loops in code"]
             duration_ms := some env.duration_ms }
    | .execError m =>
      .err { code := "EXEC_ERROR", message := "Failed to execute R: " ++ m }

/-! ## Handler payloads and responses -/

/-- One row of the `list_exports` listing.  The modification time is kept as
the raw timestamp; the `isoformat` rendering is presentation only and is
order-isomorphic to it. -/
structure ExportEntry where
  name : String
  size : Nat
  mtime : Int
  is_r_file : Bool
  deriving Repr, DecidableEq

/-- Output of the ggplot style rewriter.  The rewriter itself is the pure
text-transform utility the spec places out of scope, so its behaviour is an
oracle function producing this record. -/
structure GgStyle where
  optimized_code : Option String
  feedback : List String
  improvements_made : Nat
  deriving Repr, DecidableEq

/-- The `data` dict of each handler's success result. -/
inductive Payload where
  | getState (state : StateRec) (workdir_set : Bool) (workdir : Option String)
      (workdir_exists : Option Bool) (r_available : Bool) (primary_file : String)
  | createFile (filename : String) (path : String) (scaffold : Bool)
  | renameFile (old_name new_name : String)
  | primaryFile (primary_file : String)
  | appendCode (filename : String) (code_length : Nat) (file_size : Nat)
  | writeCode (filename : String) (overwrite : Bool) (scaffold_used : Bool)
  | runScript (exit_code : Int) (stdout stderr : String) (duration_ms : Nat)
      (script : String) (new_files modified_files : List String) (rdata_saved : Bool)
  | runExpr (exit_code : Int) (stdout stderr : String) (duration_ms : Nat)
      (expression : String)
  | listExports (files : List ExportEntry) (total : Nat)
  | readText (name : String) (content : String) (size : Nat)
  | readBinary (name : String) (content : List Char) (size : Nat)
  | previewTable (name : String) (columns : List String) (rows : List (List String))
      (total_rows : Nat) (truncated : Bool)
  | ggplotStyle (g : GgStyle)
  | inspect (exit_code : Int) (stdout stderr : String) (duration_ms : Nat)
      (objects_requested : Option (List String)) (str_max_level : Nat)
  | whichR (executable : String) (alternatives : List String)
  | listRFiles (files : List String) (primary_file : String)
  deriving Repr, DecidableEq

/-- A handler result: `{"ok": True, "data": ...}` or `{"ok": False, "error": ...}`. -/
inductive Resp where
  | ok (data : Payload)
  | err (e : ErrInfo)
  deriving Repr, DecidableEq

def Resp.isOk : Resp → Bool
  | .ok _ => true
  | .err _ => false

def Resp.errCode : Resp → Option String
  | .ok _ => none
  | .err e => some e.code

/-- External inputs consumed by the mutating handlers: the clock (used for
file modification times and the `updated_at` stamp) and the oracle for a
serialization failure inside `save_state`. -/
structure Ctx where
  now : Int
  nowIso : String
  saveFail : Bool
  deriving Repr, DecidableEq

/-! ## Shared handler pieces -/

/-- The scaffold template `R_SCAFFOLD` written into new files. -/
def R_SCAFFOLD : List Char :=
  ("# ---- Packages ----\nlibrary(ggplot2)\n\n# ---- Functions ----\n\n# ---- Main ----\n\n").data

/-- The extension normalisation done by every file-name-taking handler:
force a capital `.R` suffix. -/
def ensureRExt (filename : String) : String :=
  if strEndsWith filename ".R" then filename
  else if strEndsWith filename ".r" then filename.dropRight 2 ++ ".R"
  else filename ++ ".R"

/-- Embeds `if existing_content and not existing_content.endswith('\n')` padding
from `handle_append_r_code`. -/
def adjustExisting (s : List Char) : List Char :=
  if s ≠ [] && !(endsWithNewline s) then s ++ ['\n'] else s

/-- Embeds `if ensure_trailing_newline and not code.endswith('\n')` padding from
`handle_append_r_code`. -/
def adjustCode (ensure_nl : Bool) (c : List Char) : List Char :=
  if ensure_nl && !(endsWithNewline c) then c ++ ['\n'] else c

/-- Move a file to a new path, keeping content and modification time. -/
def Fs.rename (fs : Fs) (src dst : FPath) : Fs :=
  match fs.lookupFile src with
  | none => fs
  | some e => (fs.eraseFile src).writeFile dst e.data e.mtime

/-- Stable insertion sort: `le x y = true` keeps `x` in front of `y`,
matching the stability of Python's `list.sort`. -/
def insertSorted (le : α → α → Bool) (x : α) : List α → List α
  | [] => [x]
  | y :: ys => if le x y then x :: y :: ys else y :: insertSorted le x ys

def sortStable (le : α → α → Bool) : List α → List α
  | [] => []
  | x :: xs => insertSorted le x (sortStable le xs)

/-! ## Handlers -/

/-- Embeds `handle_get_state`: always succeeds; runtime info is layered over the
loaded record. -/
def handle_get_state (srv : Srv) (fs : Fs) (renv : REnv) : Resp :=
  let st := load_state srv fs
  match srv.workdir with
  | some wd =>
    .ok (.getState st true (some (pathStr wd)) (some (fs.pathExists wd))
          (find_r_executable renv).isSome srv.primary_file)
  | none =>
    .ok (.getState st false st.workdir none
          (find_r_executable renv).isSome srv.primary_file)

/-- Embeds `handle_create_r_file`. -/
def handle_create_r_file (srv : Srv) (fs : Fs) (ctx : Ctx) (filename : String)
    (overwrite : Bool) (scaffold : Bool) : Resp × Fs :=
  match ensure_workdir_set srv fs with
  | .error e => (.err e, fs)
  | .ok wd =>
    let filename := ensureRExt filename
    let file_path := joinPath wd filename
    if is_safe_path srv fs file_path = false then (.err (unsafePathErr filename), fs)
    else if fs.osExists file_path && !overwrite then
      (.err { code := "FILE_EXISTS"
              message := "File " ++ filename ++ " already exists"
              hints := ["Set overwrite=true to replace the file", "Use a different filename"] }, fs)
    else
      let content : FileData := .bytes (if scaffold then R_SCAFFOLD else [])
      match osWritePath fs file_path with
      | none =>
        -- write_text raised (for example a missing intermediate directory
        -- of a non-normalised candidate): the except-block returns
        -- CREATE_ERROR with nothing written and no state update.  The OS
        -- exception text interpolated into the message is not modelled.
        (.err { code := "CREATE_ERROR", message := "Failed to create file: " }, fs)
      | some target =>
        let fs1 := fs.writeFile target content ctx.now
        let st := load_state srv fs1
        let rfiles := st.r_files.getD []
        let rfiles := if rfiles.contains filename then rfiles else rfiles ++ [filename]
        let st := { st with r_files := some rfiles, updated_at := some ctx.nowIso }
        let fs2 := save_state srv fs1 st ctx.saveFail ctx.now
        (.ok (.createFile filename (pathStr file_path) scaffold), fs2)

/-- Embeds `handle_rename_r_file` (may retarget `primary_file`, so the updated
server state is part of the result). -/
def handle_rename_r_file (srv : Srv) (fs : Fs) (ctx : Ctx) (old_name new_name : String)
    (overwrite : Bool) : Resp × Fs × Srv :=
  match ensure_workdir_set srv fs with
  | .error e => (.err e, fs, srv)
  | .ok wd =>
    let new_name := ensureRExt new_name
    let old_path := joinPath wd old_name
    let new_path := joinPath wd new_name
    if is_safe_path srv fs old_path = false || is_safe_path srv fs new_path = false then
      (.err { code := "UNSAFE_PATH", message := "Path is outside working directory" }, fs, srv)
    else if fs.pathExists old_path = false then
      (.err { code := "FILE_NOT_FOUND", message := "File " ++ old_name ++ " not found" }, fs, srv)
    else if fs.pathExists new_path && !overwrite then
      (.err { code := "FILE_EXISTS"
              message := "File " ++ new_name ++ " already exists"
              hints := ["Set overwrite=true to replace the file", "Use a different filename"] }, fs, srv)
    else
      let fs1 := if fs.pathExists new_path then fs.eraseFile new_path else fs
      let fs2 := fs1.rename old_path new_path
      let st := load_state srv fs2
      let st :=
        match st.r_files with
        | none => st
        | some l =>
          let l := if l.contains old_name then l.erase old_name else l
          let l := if l.contains new_name then l else l ++ [new_name]
          { st with r_files := some l }
      let (srv', st) :=
        if srv.primary_file = old_name then
          ({ srv with primary_file := new_name }, { st with primary_file := some new_name })
        else (srv, st)
      let st := { st with updated_at := some ctx.nowIso }
      let fs3 := save_state srv' fs2 st ctx.saveFail ctx.now
      (.ok (.renameFile old_name new_name), fs3, srv')

/-- Embeds `handle_set_primary_file`. -/
def handle_set_primary_file (srv : Srv) (fs : Fs) (ctx : Ctx) (filename : String) :
    Resp × Fs × Srv :=
  match ensure_workdir_set srv fs with
  | .error e => (.err e, fs, srv)
  | .ok wd =>
    let filename := ensureRExt filename
    let file_path := joinPath wd filename
    if is_safe_path srv fs file_path = false then (.err (unsafePathErr filename), fs, srv)
    else if fs.pathExists file_path = false then
      (.err { code := "FILE_NOT_FOUND"
              message := "File " ++ filename ++ " not found"
              hints := ["Create the file first with create_r_file",
                        "Check the filename is correct"] }, fs, srv)
    else
      let srv' := { srv with primary_file := filename }
      let st := load_state srv' fs
      let st := { st with primary_file := some filename, updated_at := some ctx.nowIso }
      let fs1 := save_state srv' fs st ctx.saveFail ctx.now
      (.ok (.primaryFile filename), fs1, srv')

/-- Embeds `handle_append_r_code`: rewrites `<-` to `=`, pads newlines, and appends
to the existing file (the state record is not touched by this handler). -/
def handle_append_r_code (srv : Srv) (fs : Fs) (ctx : Ctx) (code : List Char)
    (filename? : Option String) (ensure_trailing_newline : Bool) : Resp × Fs :=
  match ensure_workdir_set srv fs with
  | .error e => (.err e, fs)
  | .ok wd =>
    let filename := ensureRExt (filename?.getD srv.primary_file)
    let file_path := joinPath wd filename
    if is_safe_path srv fs file_path = false then (.err (unsafePathErr filename), fs)
    else if fs.pathExists file_path = false then
      (.err { code := "FILE_NOT_FOUND"
              message := "File " ++ filename ++ " not found"
              hints := ["Create the file first with create_r_file",
                        "Check the filename is correct"] }, fs)
    else
      let code := applyAssignRewrite code
      let existing := ((fs.readData file_path).getD (.bytes [])).chars
      let existing := adjustExisting existing
      let code := adjustCode ensure_trailing_newline code
      let newContent := existing ++ code
      let fs1 := fs.writeFile file_path (.bytes newContent) ctx.now
      (.ok (.appendCode filename code.length newContent.length), fs1)

/-- Embeds `handle_write_r_code`: rewrites `<-` to `=`, optionally prepends the
scaffold, overwrites the file and records it in the state. -/
def handle_write_r_code (srv : Srv) (fs : Fs) (ctx : Ctx) (code : List Char)
    (filename? : Option String) (overwrite : Bool) (use_scaffold_header : Bool) :
    Resp × Fs :=
  match ensure_workdir_set srv fs with
  | .error e => (.err e, fs)
  | .ok wd =>
    let filename := ensureRExt (filename?.getD srv.primary_file)
    let file_path := joinPath wd filename
    if is_safe_path srv fs file_path = false then (.err (unsafePathErr filename), fs)
    else if fs.pathExists file_path && !overwrite then
      (.err { code := "FILE_EXISTS"
              message := "File " ++ filename ++ " already exists"
              hints := ["Set overwrite=true to replace the file",
                        "Use append_r_code to add to existing file"] }, fs)
    else
      let code := applyAssignRewrite code
      let content :=
        if use_scaffold_header && !(startsWithHash code) then R_SCAFFOLD ++ '\n' :: code
        else code
      let fs1 := fs.writeFile file_path (.bytes content) ctx.now
      let st := load_state srv fs1
      let rfiles := st.r_files.getD []
      let rfiles := if rfiles.contains filename then rfiles else rfiles ++ [filename]
      let st := { st with r_files := some rfiles, updated_at := some ctx.nowIso }
      let fs2 := save_state srv fs1 st ctx.saveFail ctx.now
      (.ok (.writeCode filename overwrite use_scaffold_header), fs2)

/-- The `-e` argument built when `save_rdata` is set. -/
def sourceExpr (filename : String) : String :=
  "source(\x27" ++ filename ++ "\x27); save.image(\x27.RData\x27)"

/-- Embeds `handle_run_r_script`: snapshot, run, snapshot, diff.  `fsAfter` is the
filesystem as the child process left it; the handler itself performs no
filesystem write and, in particular, never calls `save_state`. -/
def handle_run_r_script (srv : Srv) (fs : Fs) (env : RunEnv) (fsAfter : Fs)
    (filename? : Option String) (args : List String) (timeout_sec : Nat)
    (save_rdata : Bool) : Resp × Fs :=
  match ensure_workdir_set srv fs with
  | .error e => (.err e, fs)
  | .ok wd =>
    let filename := ensureRExt (filename?.getD srv.primary_file)
    let file_path := joinPath wd filename
    if is_safe_path srv fs file_path = false then (.err (unsafePathErr filename), fs)
    else if fs.pathExists file_path = false then
      (.err { code := "FILE_NOT_FOUND"
              message := "Script file " ++ filename ++ " not found"
              hints := ["Check the filename is correct",
                        "Create the file first with create_r_file"] }, fs)
    else
      let rscript_args :=
        (if save_rdata then ["-e", sourceExpr filename] else [filename]) ++ args
      let files_before := scan_directory_files fs wd
      let result := run_r_command env rscript_args timeout_sec
      let files_after := scan_directory_files fsAfter wd
      let d := diffNewModified files_before files_after
      match result with
      | .ok c o e dur =>
        (.ok (.runScript c o e dur filename d.1 d.2
          (save_rdata && (d.1 ++ d.2).contains ".RData")), fsAfter)
      | .err e => (.err e, fsAfter)

/-- Embeds `handle_run_r_expression`. -/
def handle_run_r_expression (srv : Srv) (fs : Fs) (env : RunEnv) (fsAfter : Fs)
    (expr : String) (timeout_sec : Nat) : Resp × Fs :=
  match ensure_workdir_set srv fs with
  | .error e => (.err e, fs)
  | .ok _ =>
    match run_r_command env ["-e", expr] timeout_sec with
    | .ok c o e dur =>
      (.ok (.runExpr c o e dur
        (if expr.length > 100 then expr.take 100 ++ "..." else expr)), fsAfter)
    | .err e => (.err e, fsAfter)

/-- Sort key selection of `handle_list_exports`. -/
def exportLe (sort_by : String) (descending : Bool) (x y : ExportEntry) : Bool :=
  if sort_by = "name" then
    if descending then decide (y.name ≤ x.name) else decide (x.name ≤ y.name)
  else if sort_by = "size" then
    if descending then decide (y.size ≤ x.size) else decide (x.size ≤ y.size)
  else
    if descending then decide (y.mtime ≤ x.mtime) else decide (x.mtime ≤ y.mtime)

/-- Embeds `handle_list_exports`: `globMatch pattern name` is the glob-matching
oracle for `Path.glob` restricted to direct children. -/
def handle_list_exports (srv : Srv) (fs : Fs) (globMatch : String → String → Bool)
    (glob sort_by : String) (descending : Bool) (limit : Nat) : Resp :=
  match ensure_workdir_set srv fs with
  | .error e => .err e
  | .ok wd =>
    let entries := fs.files.filterMap (fun e =>
      (childName wd e.path).bind (fun n =>
        if globMatch glob n then
          some { name := n, size := e.data.size, mtime := e.mtime
                 is_r_file := strEndsWith (toLowerStr n) ".r" : ExportEntry }
        else none))
    let sorted := sortStable (exportLe sort_by descending) entries
    let limited := sorted.take limit
    .ok (.listExports limited limited.length)

/-- Embeds `handle_read_export`.  `encOk` is the oracle for text decoding success;
the base64 transport encoding of the binary branch is not modelled, the
payload carries the raw bytes.  The second component lists the paths whose
file data or metadata the handler touched. -/
def handle_read_export (srv : Srv) (fs : Fs) (name : String) (max_bytes : Nat)
    (as_text : Bool) (encOk : Bool) : Resp × List FPath :=
  match ensure_workdir_set srv fs with
  | .error e => (.err e, [])
  | .ok wd =>
    let file_path := joinPath wd name
    if is_safe_path srv fs file_path = false then
      (.err { code := "UNSAFE_PATH"
              message := "File path " ++ name ++ " is outside working directory" }, [])
    else if fs.pathExists file_path = false then
      (.err { code := "FILE_NOT_FOUND", message := "File " ++ name ++ " not found" },
       [file_path])
    else if fs.fileExists file_path = false then
      (.err { code := "NOT_A_FILE", message := name ++ " is not a file" }, [file_path])
    else
      let d := ((fs.readData file_path).getD (.bytes []))
      if d.size > max_bytes then
        (.err { code := "FILE_TOO_LARGE"
                message := "File size " ++ toString d.size ++ " exceeds max_bytes " ++
                  toString max_bytes
                hints := ["Increase max_bytes parameter", "Use preview_table for CSV files"] },
         [file_path])
      else if as_text then
        if encOk then
          (.ok (.readText name (String.mk d.chars) d.size), [file_path])
        else
          (.err { code := "DECODE_ERROR"
                  message := "Failed to decode file"
                  hints := ["Try as_text=false for binary files", "Use a different encoding"] },
           [file_path])
      else (.ok (.readBinary name d.chars d.size), [file_path])

/-- Embeds `handle_preview_table`: `csvParse delimiter text` is the `csv.reader`
oracle. -/
def handle_preview_table (srv : Srv) (fs : Fs)
    (csvParse : String → List Char → List (List String)) (name delimiter : String)
    (max_rows : Nat) : Resp :=
  match ensure_workdir_set srv fs with
  | .error e => .err e
  | .ok wd =>
    let file_path := joinPath wd name
    if is_safe_path srv fs file_path = false then
      .err { code := "UNSAFE_PATH"
             message := "File path " ++ name ++ " is outside working directory" }
    else if fs.pathExists file_path = false then
      .err { code := "FILE_NOT_FOUND", message := "File " ++ name ++ " not found" }
    else
      let allRows := csvParse delimiter (((fs.readData file_path).getD (.bytes [])).chars)
      let rows := allRows.take (max_rows + 1)
      let total_rows := allRows.length
      match rows with
      | [] => .ok (.previewTable name [] [] 0 false)
      | header :: rest =>
        .ok (.previewTable name header (rest.take max_rows) total_rows
          (total_rows > max_rows + 1))

/-- Embeds `handle_ggplot_style_check`: the rewriting body is the out-of-scope text
transform, supplied as the `styleFn` oracle; the handler contributes the
workdir guard and the empty-code check. -/
def handle_ggplot_style_check (srv : Srv) (fs : Fs) (styleFn : List Char → GgStyle)
    (code : List Char) : Resp :=
  match ensure_workdir_set srv fs with
  | .error e => .err e
  | .ok _ =>
    if code = [] then
      .err { code := "NO_CODE"
             message := "No code provided to check"
             hints := ["Provide ggplot code to analyze and optimize"] }
    else .ok (.ggplotStyle (styleFn code))

/-- Embeds `', '.join(f'"{obj}"' for obj in objects)` from `handle_inspect_r_objects`:
each requested name is wrapped in double quotes with no escaping. -/
def objList (objects : List String) : String :=
  String.intercalate ", " (objects.map (fun obj => "\"" ++ obj ++ "\""))

/-- The generated R request for a non-empty object list (the f-string at the
top of `handle_inspect_r_objects`, with `{obj_list}` and `{str_max_level}`
spliced in). -/
def inspectExprObjs (obj_list : String) (lvl : Nat) : String :=
  "\n            load(\x27.RData\x27)\n            objs = list(" ++ obj_list ++
  ")\n            for(name in objs)\x7b\n                if(exists(name))\x7b\n                    cat(\x27\\n==\x27, name, \x27==\\n\x27)\n                    str(get(name), max.level=" ++
  toString lvl ++
  ")\n                \x7delse\x7b\n                    cat(\x27\\n==\x27, name, \x27== [NOT FOUND]\\n\x27)\n                \x7d\n            \x7d\n            "

/-- The generated R request for a full listing (the second f-string of
`handle_inspect_r_objects`). -/
def inspectExprAll (lvl : Nat) : String :=
  "\n            load(\x27.RData\x27)\n            cat(\x27\\nObjects in workspace:\\n\x27)\n            print(ls())\n            cat(\x27\\n\\nStructure of objects:\\n\x27)\n            for(name in ls())\x7b\n                cat(\x27\\n==\x27, name, \x27==\\n\x27)\n                str(get(name), max.level=" ++
  toString lvl ++
  ")\n            \x7d\n            "

/-- The request text sent to the interpreter; a `None` or empty list takes
the listing branch, as Python's truthiness test does. -/
def buildInspectExpr (objects : Option (List String)) (lvl : Nat) : String :=
  match objects with
  | some (o :: os) => inspectExprObjs (objList (o :: os)) lvl
  | _ => inspectExprAll lvl

/-- Embeds `handle_inspect_r_objects`. -/
def handle_inspect_r_objects (srv : Srv) (fs : Fs) (env : RunEnv)
    (objects : Option (List String)) (str_max_level : Nat) (timeout_sec : Nat) : Resp :=
  match ensure_workdir_set srv fs with
  | .error e => .err e
  | .ok wd =>
    if fs.pathExists (wd ++ [".RData"]) = false then
      .err { code := "NO_RDATA"
             message := "No .RData file found"
             hints := ["Run an R script with save_rdata=true first",
                       "Check if .RData was created in the working directory"] }
    else
      let expr := buildInspectExpr objects str_max_level
      match run_r_command env ["-e", expr] timeout_sec with
      | .ok c o e dur => .ok (.inspect c o e dur objects str_max_level)
      | .err e => .err e

/-- Embeds `handle_which_r`: succeeds whenever either executable is on the PATH;
performs no workdir check. -/
def handle_which_r (renv : REnv) : Resp :=
  match renv.rscript, renv.r with
  | some rs, some r => .ok (.whichR rs [rs, r])
  | some rs, none => .ok (.whichR rs [rs])
  | none, some r => .ok (.whichR r [r])
  | none, none =>
    .err { code := "R_NOT_FOUND"
           message := "R not found in PATH"
           hints := ["Install R from https://www.r-project.org/",
                     "Add Rscript or R to your system PATH"] }

/-- Embeds `handle_list_r_files`: direct children matching `*.R` then `*.r`,
deduplicated in that order, sorted ascending. -/
def handle_list_r_files (srv : Srv) (fs : Fs) : Resp :=
  match ensure_workdir_set srv fs with
  | .error e => .err e
  | .ok wd =>
    let children := (scan_directory_files fs wd).map Prod.fst
    let l1 := children.filter (fun n => strEndsWith n ".R")
    let l2 := l1 ++ children.filter (fun n => strEndsWith n ".r" && !(l1.contains n))
    let sorted := sortStable (fun a b => decide (a ≤ b)) l2
    .ok (.listRFiles sorted srv.primary_file)

/-! ## Derived predicates and concrete fixtures -/

/-- The candidate's resolution lands outside the root (or fails):
the condition under which the Sandbox Guard must reject. -/
def outsideRoot (wd : FPath) : Option FPath → Bool
  | none => true
  | some r => !(isRelTo r wd)

/-- The path `p` is neither the state file nor its temporary sibling, so a
`save_state` call cannot disturb the file at `p`. -/
def avoids (p : FPath) : Option FPath → Bool
  | none => true
  | some sf => decide (p ≠ sf) && decide (p ≠ withSuffixTmp sf)

/-- The situations `load_state` must degrade gracefully in: no state file
configured, the file missing, or its contents unparsable. -/
def stateUnreadable (srv : Srv) (fs : Fs) : Bool :=
  match srv.state_file with
  | none => true
  | some sf =>
    match fs.readData sf with
    | none => true
    | some (.bytes _) => true
    | some (.json _) => false

/-- Fixture: the workspace root `/ws`. -/
def wsRoot : FPath := ["ws"]

/-- Fixture: the state file `/ws/.mcpr_state/state.json`. -/
def stateFileP : FPath := ["ws", ".mcpr_state", "state.json"]

/-- Fixture: a server bound to `/ws`. -/
def srvBound : Srv :=
  { workdir := some wsRoot, state_file := some stateFileP, primary_file := "agent.R" }

/-- Fixture: a freshly constructed server with no workspace bound. -/
def srvUnbound : Srv :=
  { workdir := none, state_file := none, primary_file := "agent.R" }

/-- Fixture: the on-disk state record before a run. -/
def stOld : StateRec :=
  { workdir := some "/ws", primary_file := some "agent.R"
    updated_at := some "2026-01-01T00:00:00" }

/-- Fixture: a workspace holding one script and a valid state file. -/
def fsBase : Fs :=
  { files := [⟨["ws", "agent.R"], .bytes ("x = 1\n").data, 100⟩,
              ⟨stateFileP, .json stOld, 100⟩]
    dirs := [[], ["ws"], ["ws", ".mcpr_state"]]
    symlinks := [] }

/-- Fixture: the same workspace after a run that produced `out.csv`. -/
def fsAfterRun : Fs :=
  { fsBase with files := fsBase.files ++ [⟨["ws", "out.csv"], .bytes ("1,2\n").data, 200⟩] }

/-- Fixture: an environment where `Rscript` is found and the child exits 0. -/
def runEnvOk : RunEnv :=
  { renv := { rscript := some "/usr/bin/Rscript", r := none }
    proc := .completed 0 "" "", duration_ms := 42 }

/-- Fixture: the clock and a succeeding `save_state` for mutating handlers. -/
def ctx0 : Ctx := { now := 500, nowIso := "2026-01-02T00:00:00", saveFail := false }

/-- Fixture: `/ws` with a symlink `/ws/lnk` pointing at `/etc`. -/
def fsWithLink : Fs :=
  { fsBase with symlinks := [(["ws", "lnk"], ["etc"])] }

/-- Fixture: the workspace with an existing subdirectory `/ws/a`, so that a
write through `/ws/a/../` can traverse it. -/
def fsWithSubdir : Fs :=
  { fsBase with dirs := fsBase.dirs ++ [["ws", "a"]] }

/-! ## Lemmas about the assignment rewrite -/

theorem containsArrow_cons (c : Char) (s : List Char) :
    containsArrow (c :: s) = ((c == '<' && s.head? == some '-') || containsArrow s) := by
  cases s <;> simp [containsArrow]

theorem head?_replaceArrow (s : List Char) :
    (replaceArrow s).head? =
      match s with
      | a :: b :: _ => if a == '<' && b == '-' then some '=' else some a
      | _ => s.head? := by
  match s with
  | [] => rfl
  | [c] => rfl
  | a :: b :: rest =>
    by_cases h : (a == '<' && b == '-') = true
    · simp [replaceArrow, h]
    · simp only [replaceArrow]
      rw [if_neg h, if_neg h]
      rfl

theorem head?_replaceArrow_ne_dash (s : List Char) (h : s.head? ≠ some '-') :
    (replaceArrow s).head? ≠ some '-' := by
  rw [head?_replaceArrow]
  match s with
  | [] => simp
  | [c] => simpa using h
  | a :: b :: rest =>
    by_cases harr : (a == '<' && b == '-') = true
    · simp [harr]
    · simpa [harr] using h

/-- The rewrite leaves no occurrence of the arrow behind. -/
theorem containsArrow_replaceArrow (s : List Char) :
    containsArrow (replaceArrow s) = false := by
  induction s using replaceArrow.induct with
  | case1 => rfl
  | case2 c => rfl
  | case3 a b rest h ih =>
    rw [replaceArrow, if_pos h, containsArrow_cons]
    simp only [ih, Bool.or_false]
    simp
  | case4 a b rest h ih =>
    rw [replaceArrow, if_neg h, containsArrow_cons, ih, Bool.or_false]
    by_cases ha : (a == '<') = true
    · have hb : ¬ (b == '-') = true := by
        intro hb; exact h (by simp [ha, hb])
      have hne : (replaceArrow (b :: rest)).head? ≠ some '-' := by
        apply head?_replaceArrow_ne_dash
        simpa using fun hbe => hb (by simp [hbe])
      simp [hne]
    · simp [ha]

theorem replaceArrow_eq_self (s : List Char) (h : containsArrow s = false) :
    replaceArrow s = s := by
  induction s using replaceArrow.induct with
  | case1 => rfl
  | case2 c => rfl
  | case3 a b rest harr ih =>
    rw [containsArrow, harr] at h
    simp at h
  | case4 a b rest harr ih =>
    rw [containsArrow] at h
    rw [replaceArrow, if_neg harr, ih (by simpa using (Bool.or_eq_false_iff.mp h).2)]

/-- The `if "<-" in code` guard around `replace` is redundant: the guarded
form always equals the plain replacement. -/
theorem applyAssignRewrite_eq (s : List Char) :
    applyAssignRewrite s = replaceArrow s := by
  unfold applyAssignRewrite
  by_cases h : containsArrow s = true
  · rw [if_pos h]
  · rw [if_neg h, replaceArrow_eq_self s (by simpa using h)]

theorem length_replaceArrow_le (s : List Char) :
    (replaceArrow s).length ≤ s.length := by
  induction s using replaceArrow.induct with
  | case1 => simp [replaceArrow]
  | case2 c => simp [replaceArrow]
  | case3 a b rest harr ih =>
    rw [replaceArrow, if_pos harr]
    simp only [List.length_cons] at ih ⊢
    omega
  | case4 a b rest harr ih =>
    rw [replaceArrow, if_neg harr]
    simp only [List.length_cons] at ih ⊢
    omega

theorem length_replaceArrow_lt (s : List Char) (h : containsArrow s = true) :
    (replaceArrow s).length < s.length := by
  induction s using replaceArrow.induct with
  | case1 => simp [containsArrow] at h
  | case2 c => simp [containsArrow] at h
  | case3 a b rest harr ih =>
    rw [replaceArrow, if_pos harr]
    have := length_replaceArrow_le rest
    simp only [List.length_cons]
    omega
  | case4 a b rest harr ih =>
    rw [containsArrow] at h
    have h2 : containsArrow (b :: rest) = true := by
      rcases (Bool.or_eq_true _ _).mp h with h1 | h1
      · exact absurd h1 harr
      · exact h1
    rw [replaceArrow, if_neg harr]
    have := ih h2
    simp only [List.length_cons] at this ⊢
    omega

/-- A string containing the arrow is genuinely changed by the rewrite. -/
theorem replaceArrow_ne_self (s : List Char) (h : containsArrow s = true) :
    replaceArrow s ≠ s := by
  intro he
  have := length_replaceArrow_lt s h
  rw [he] at this
  omega

theorem containsArrow_append_single (s : List Char) (c : Char) (h : (c == '-') = false) :
    containsArrow (s ++ [c]) = containsArrow s := by
  induction s using containsArrow.induct with
  | case1 => simp [containsArrow, h]
  | case2 a => simp [containsArrow, h, containsArrow_cons]
  | case3 a b rest ih =>
    rw [List.cons_append, List.cons_append, containsArrow, ← List.cons_append, ih, containsArrow]

/-- The leading `#` test commutes with the rewrite: a rewritten text starts
with `#` exactly when the original did. -/
theorem startsWithHash_replaceArrow (s : List Char) :
    startsWithHash (replaceArrow s) = startsWithHash s := by
  unfold startsWithHash
  rw [head?_replaceArrow]
  match s with
  | [] => rfl
  | [c] => rfl
  | a :: b :: rest =>
    by_cases harr : (a == '<' && b == '-') = true
    · have ha : a = '<' := by
        have := (Bool.and_eq_true _ _).mp harr
        exact eq_of_beq this.1
      simp only [harr, ha]
      split <;> simp
    · simp [harr]

/-! ## Lemmas about the filesystem model -/

theorem findFile_erase_self (l : List FileEntry) (p : FPath) :
    findFile (eraseEntries l p) p = none := by
  induction l with
  | nil => rfl
  | cons e rest ih =>
    by_cases h : e.path = p
    · simpa [eraseEntries, h] using ih
    · simpa [eraseEntries, findFile, h] using ih

theorem findFile_erase_ne (l : List FileEntry) {p q : FPath} (h : q ≠ p) :
    findFile (eraseEntries l p) q = findFile l q := by
  induction l with
  | nil => rfl
  | cons e rest ih =>
    by_cases he : e.path = p
    · rw [eraseEntries, if_pos he, ih, findFile, if_neg (by rw [he]; exact fun hq => h hq.symm)]
    · rw [eraseEntries, if_neg he, findFile, findFile]
      by_cases hq : e.path = q
      · rw [if_pos hq, if_pos hq]
      · rw [if_neg hq, if_neg hq, ih]

theorem findFile_append (l1 l2 : List FileEntry) (p : FPath) :
    findFile (l1 ++ l2) p =
      match findFile l1 p with
      | some e => some e
      | none => findFile l2 p := by
  induction l1 with
  | nil => rfl
  | cons e rest ih =>
    by_cases h : e.path = p <;> simp [findFile, h, ih]

theorem lookupFile_write_self (fs : Fs) (p : FPath) (d : FileData) (t : Int) :
    (fs.writeFile p d t).lookupFile p = some ⟨p, d, t⟩ := by
  simp [Fs.writeFile, Fs.lookupFile, findFile_append, findFile_erase_self, findFile]

theorem lookupFile_write_ne (fs : Fs) {p q : FPath} (d : FileData) (t : Int) (h : q ≠ p) :
    (fs.writeFile p d t).lookupFile q = fs.lookupFile q := by
  simp only [Fs.writeFile, Fs.lookupFile, findFile_append, findFile_erase_ne _ h, findFile]
  rw [if_neg (fun hq => h hq.symm)]
  cases findFile fs.files q <;> rfl

theorem lookupFile_erase_self (fs : Fs) (p : FPath) :
    (fs.eraseFile p).lookupFile p = none := by
  simp [Fs.eraseFile, Fs.lookupFile, findFile_erase_self]

theorem lookupFile_erase_ne (fs : Fs) {p q : FPath} (h : q ≠ p) :
    (fs.eraseFile p).lookupFile q = fs.lookupFile q := by
  simp [Fs.eraseFile, Fs.lookupFile, findFile_erase_ne _ h]

/-- A `save_state` call cannot disturb a path that is neither the state file
nor its temporary sibling. -/
theorem lookupFile_save_state (srv : Srv) (fs : Fs) (st : StateRec) (fail : Bool)
    (now : Int) (p : FPath) (h : avoids p srv.state_file = true) :
    (save_state srv fs st fail now).lookupFile p = fs.lookupFile p := by
  unfold save_state
  match hsf : srv.state_file with
  | none => rfl
  | some sf =>
    rw [hsf] at h
    unfold avoids at h
    have h1 : p ≠ sf := of_decide_eq_true ((Bool.and_eq_true _ _).mp h).1
    have h2 : p ≠ withSuffixTmp sf := of_decide_eq_true ((Bool.and_eq_true _ _).mp h).2
    cases fail with
    | true => simpa using lookupFile_erase_ne fs h2
    | false =>
      simp only [Bool.false_eq_true, if_false, lookupFile_write_self]
      rw [lookupFile_write_ne _ _ _ h1, lookupFile_erase_ne _ h2, lookupFile_write_ne _ _ _ h2]

/-! ## Lemmas about snapshots and the run diff -/

theorem lookupSnap_cons (k : String) (v : Int) (l : List (String × Int)) (n : String) :
    lookupSnap ((k, v) :: l) n = if k = n then some v else lookupSnap l n := rfl

theorem lookupSnap_eq_none (l : List (String × Int)) (name : String)
    (h : name ∉ l.map Prod.fst) : lookupSnap l name = none := by
  induction l with
  | nil => rfl
  | cons kv rest ih =>
    obtain ⟨k, v⟩ := kv
    simp only [List.map_cons, List.mem_cons] at h
    push_neg at h
    rw [lookupSnap_cons, if_neg (fun he => h.1 he.symm), ih h.2]

theorem diff_cons_new (before rest : List (String × Int)) (k : String) (v : Int)
    (hb : lookupSnap before k = none) :
    diffNewModified before ((k, v) :: rest) =
      (k :: (diffNewModified before rest).1, (diffNewModified before rest).2) := by
  simp only [diffNewModified, hb]

theorem diff_cons_mod (before rest : List (String × Int)) (k : String) (v t0 : Int)
    (hb : lookupSnap before k = some t0) (hv : v > t0) :
    diffNewModified before ((k, v) :: rest) =
      ((diffNewModified before rest).1, k :: (diffNewModified before rest).2) := by
  simp only [diffNewModified, hb]
  rw [if_pos hv]

theorem diff_cons_skip (before rest : List (String × Int)) (k : String) (v t0 : Int)
    (hb : lookupSnap before k = some t0) (hv : ¬ v > t0) :
    diffNewModified before ((k, v) :: rest) = diffNewModified before rest := by
  simp only [diffNewModified, hb]
  rw [if_neg hv]

/-- Membership characterisation of the run diff, over snapshots with
duplicate-free names (Python dict keys are unique). -/
theorem diff_mem_iff (before : List (String × Int)) (after : List (String × Int))
    (hnd : (after.map Prod.fst).Nodup) (name : String) :
    (name ∈ (diffNewModified before after).1 ∨ name ∈ (diffNewModified before after).2) ↔
      ∃ ta, lookupSnap after name = some ta ∧
        (lookupSnap before name = none ∨
          ∃ tb, lookupSnap before name = some tb ∧ ta > tb) := by
  induction after with
  | nil => simp [diffNewModified, lookupSnap]
  | cons kv rest ih =>
    obtain ⟨k, v⟩ := kv
    simp only [List.map_cons, List.nodup_cons] at hnd
    by_cases hk : name = k
    · subst hk
      have hrest : lookupSnap rest name = none := lookupSnap_eq_none rest name hnd.1
      have hihF : ¬ (name ∈ (diffNewModified before rest).1 ∨
          name ∈ (diffNewModified before rest).2) := by
        rw [ih hnd.2]
        rintro ⟨ta, hta, -⟩
        rw [hrest] at hta
        exact Option.noConfusion hta
      rw [lookupSnap_cons, if_pos rfl]
      match hb : lookupSnap before name with
      | none =>
        rw [diff_cons_new before rest name v hb]
        constructor
        · intro _
          exact ⟨v, rfl, Or.inl rfl⟩
        · intro _
          left
          exact List.mem_cons_self _ _
      | some t0 =>
        by_cases hv : v > t0
        · rw [diff_cons_mod before rest name v t0 hb hv]
          constructor
          · intro _
            exact ⟨v, rfl, Or.inr ⟨t0, rfl, hv⟩⟩
          · intro _
            right
            exact List.mem_cons_self _ _
        · rw [diff_cons_skip before rest name v t0 hb hv]
          constructor
          · intro hmem
            exact absurd hmem hihF
          · rintro ⟨ta, hta, hcase⟩
            injection hta with hta
            subst hta
            rcases hcase with h1 | ⟨tb, htb, hgt⟩
            · exact Option.noConfusion h1
            · injection htb with htb
              subst htb
              exact absurd hgt hv
    · have hlk : lookupSnap ((k, v) :: rest) name = lookupSnap rest name := by
        rw [lookupSnap_cons, if_neg (fun he => hk he.symm)]
      rw [hlk]
      have hmemr : ∀ l : List String, name ∈ k :: l ↔ name ∈ l := by
        intro l
        constructor
        · intro h1
          rcases List.mem_cons.mp h1 with h1 | h1
          · exact absurd h1 hk
          · exact h1
        · exact fun h1 => List.mem_cons_of_mem _ h1
      match hb : lookupSnap before k with
      | none =>
        rw [diff_cons_new before rest k v hb, hmemr]
        exact ih hnd.2
      | some t0 =>
        by_cases hv : v > t0
        · rw [diff_cons_mod before rest k v t0 hb hv, hmemr]
          exact ih hnd.2
        · rw [diff_cons_skip before rest k v t0 hb hv]
          exact ih hnd.2

/-! ## Claim theorems -/

/-- Claim C7: the sandbox check fails closed — with no workspace root set,
`is_safe_path` returns `false` for every candidate path. -/
theorem c7_sandbox_fails_closed (sf : Option FPath) (pf : String) (fs : Fs) (p : FPath) :
    is_safe_path { workdir := none, state_file := sf, primary_file := pf } fs p = false :=
  rfl

/-- Claim C8: `load_state` is total (the embedding is a plain function, so no
exception escapes), returns the empty record whenever the state file is
unset, missing, or unparsable, and the system stays usable afterwards
(`get_state` still succeeds). -/
theorem c8_load_state_graceful (srv : Srv) (fs : Fs) (renv : REnv)
    (h : stateUnreadable srv fs = true) :
    load_state srv fs = {} ∧ (handle_get_state srv fs renv).isOk = true := by
  constructor
  · unfold stateUnreadable at h
    unfold load_state
    split at h
    · simp_all
    · split at h
      · simp_all
      · simp_all
      · simp at h
  · cases hw : srv.workdir <;> simp [handle_get_state, hw, Resp.isOk]

/-- Witness for C8 at a corrupted state file. -/
theorem c8_witness :
    load_state srvBound
        { files := [⟨stateFileP, .bytes ("not json").data, 1⟩], dirs := [wsRoot]
          symlinks := [] } = {} ∧
      (handle_get_state srvBound
        { files := [⟨stateFileP, .bytes ("not json").data, 1⟩], dirs := [wsRoot]
          symlinks := [] } { rscript := none, r := none }).isOk = true :=
  c8_load_state_graceful _ _ _ (by decide)

/-- Claim C2: `save_state` is atomic.  With the serialization-failure oracle
set, the state file keeps its previous entry byte-for-byte and the temporary
file is removed; on success the target holds exactly the new record and the
temporary file is gone; in every case the on-disk record is either the old
or the new complete one. -/
theorem c2_save_state_atomic (srv : Srv) (fs : Fs) (st : StateRec) (now : Int) (sf : FPath)
    (hsf : srv.state_file = some sf) (htmp : withSuffixTmp sf ≠ sf) :
    ((save_state srv fs st true now).lookupFile sf = fs.lookupFile sf ∧
      (save_state srv fs st true now).lookupFile (withSuffixTmp sf) = none) ∧
    ((save_state srv fs st false now).readData sf = some (.json st) ∧
      (save_state srv fs st false now).lookupFile (withSuffixTmp sf) = none) ∧
    (∀ fail : Bool, (save_state srv fs st fail now).readData sf = fs.readData sf ∨
      (save_state srv fs st fail now).readData sf = some (.json st)) := by
  have hne : sf ≠ withSuffixTmp sf := fun h => htmp h.symm
  have hTrue1 : (save_state srv fs st true now).lookupFile sf = fs.lookupFile sf := by
    unfold save_state
    rw [hsf]
    simpa using lookupFile_erase_ne fs hne
  have hTrue2 : (save_state srv fs st true now).lookupFile (withSuffixTmp sf) = none := by
    unfold save_state
    rw [hsf]
    simpa using lookupFile_erase_self fs (withSuffixTmp sf)
  have hFalse1 : (save_state srv fs st false now).readData sf = some (.json st) := by
    unfold save_state
    rw [hsf]
    simp only [Bool.false_eq_true, if_false, lookupFile_write_self]
    unfold Fs.readData
    rw [lookupFile_write_self]
    rfl
  have hFalse2 : (save_state srv fs st false now).lookupFile (withSuffixTmp sf) = none := by
    unfold save_state
    rw [hsf]
    simp only [Bool.false_eq_true, if_false, lookupFile_write_self]
    rw [lookupFile_write_ne _ _ _ htmp, lookupFile_erase_self]
  refine ⟨⟨hTrue1, hTrue2⟩, ⟨hFalse1, hFalse2⟩, ?_⟩
  intro fail
  cases fail with
  | true =>
    left
    unfold Fs.readData
    rw [hTrue1]
  | false => right; exact hFalse1

/-- Witness for C2 on the concrete workspace fixture. -/
theorem c2_witness :
    ((save_state srvBound fsBase stOld true 5).lookupFile stateFileP =
        fsBase.lookupFile stateFileP ∧
      (save_state srvBound fsBase stOld true 5).lookupFile (withSuffixTmp stateFileP) =
        none) ∧
    ((save_state srvBound fsBase stOld false 5).readData stateFileP =
        some (.json stOld) ∧
      (save_state srvBound fsBase stOld false 5).lookupFile (withSuffixTmp stateFileP) =
        none) ∧
    (∀ fail : Bool,
      (save_state srvBound fsBase stOld fail 5).readData stateFileP =
          fsBase.readData stateFileP ∨
        (save_state srvBound fsBase stOld fail 5).readData stateFileP =
          some (.json stOld)) :=
  c2_save_state_atomic srvBound fsBase stOld 5 stateFileP rfl (by decide)

/-- Claim C3 (counterexample): a successful `run_r_script` that produced a
new artifact (`out.csv`, reported in the response) leaves the state file
byte-for-byte as it was before the run — still the pre-run record, with no
export manifest entry and no refreshed last-run timestamp — so the durable
record does not reflect the produced artifacts or the run time. -/
theorem c3_counterexample :
    (handle_run_r_script srvBound fsBase runEnvOk fsAfterRun (some "agent") [] 120
        false).1 =
      .ok (.runScript 0 "" "" 42 "agent.R" ["out.csv"] [] false) ∧
    (handle_run_r_script srvBound fsBase runEnvOk fsAfterRun (some "agent") [] 120
        false).2.readData stateFileP =
      fsBase.readData stateFileP ∧
    fsBase.readData stateFileP = some (.json stOld) :=
  ⟨by decide, by decide, by decide⟩

/-- Claim C3 (amended): a run computes the before/after diff and returns it
in the response payload, but performs no filesystem write of its own — the
resulting filesystem is exactly the one the child process left, so nothing
is folded into the durable state record. -/
theorem c3_amended (srv : Srv) (fs : Fs) (env : RunEnv) (fsA : Fs)
    (filename? : Option String) (args : List String) (tsec : Nat) (saveR : Bool)
    (wd : FPath)
    (hwd : srv.workdir = some wd) (hex : fs.pathExists wd = true)
    (hsafe : is_safe_path srv fs
      (joinPath wd (ensureRExt (filename?.getD srv.primary_file))) = true)
    (hfile : fs.pathExists
      (joinPath wd (ensureRExt (filename?.getD srv.primary_file))) = true) :
    (handle_run_r_script srv fs env fsA filename? args tsec saveR).2 = fsA ∧
    (∀ c o e dur,
      run_r_command env
          ((if saveR then ["-e", sourceExpr (ensureRExt (filename?.getD srv.primary_file))]
            else [ensureRExt (filename?.getD srv.primary_file)]) ++ args) tsec =
        .ok c o e dur →
      (handle_run_r_script srv fs env fsA filename? args tsec saveR).1 =
        .ok (.runScript c o e dur (ensureRExt (filename?.getD srv.primary_file))
          (diffNewModified (scan_directory_files fs wd) (scan_directory_files fsA wd)).1
          (diffNewModified (scan_directory_files fs wd) (scan_directory_files fsA wd)).2
          (saveR &&
            ((diffNewModified (scan_directory_files fs wd)
                  (scan_directory_files fsA wd)).1 ++
              (diffNewModified (scan_directory_files fs wd)
                  (scan_directory_files fsA wd)).2).contains ".RData"))) := by
  have hguard : ensure_workdir_set srv fs = .ok wd := by
    simp [ensure_workdir_set, hwd, hex]
  constructor
  · simp only [handle_run_r_script, hguard, hsafe, hfile]
    simp only [Bool.true_eq_false, if_false]
    split <;> rfl
  · intro c o e dur hrun
    simp only [handle_run_r_script, hguard, hsafe, hfile, hrun]
    simp

/-- Witness for C3 (amended) on the concrete workspace fixture. -/
theorem c3_witness :
    (handle_run_r_script srvBound fsBase runEnvOk fsAfterRun (some "agent") [] 120
        false).2 = fsAfterRun ∧
    (handle_run_r_script srvBound fsBase runEnvOk fsAfterRun (some "agent") [] 120
        false).1 =
      .ok (.runScript 0 "" "" 42 "agent.R" ["out.csv"] [] false) := by
  have h := c3_amended srvBound fsBase runEnvOk fsAfterRun (some "agent") [] 120 false
    wsRoot rfl (by decide) (by decide) (by decide)
  refine ⟨h.1, ?_⟩
  rw [h.2 0 "" "" 42 (by decide)]
  decide

/-- Claim C4 (counterexample): with no workspace bound, `get_state` and
`which_r` return success payloads rather than a structured no-workspace
failure, so the claim that every operation except set-workspace fails
without a workspace is false for these two. -/
theorem c4_counterexample :
    (handle_get_state srvUnbound fsBase { rscript := none, r := none }).isOk = true ∧
    (handle_which_r { rscript := some "/usr/bin/Rscript", r := none }).isOk = true :=
  ⟨rfl, rfl⟩

/-- Claim C4 (amended): every public operation other than set-workspace,
get-state and which-interpreter runs the workdir check before any
operation-specific logic and returns the structured `NO_WORKDIR` failure,
leaving the filesystem untouched, when no workspace is bound; get-state
always succeeds, and which-interpreter never reports a workspace condition. -/
theorem c4_amended (sf : Option FPath) (pf : String) (fs fsA : Fs) (ctx : Ctx)
    (renv : REnv) (env : RunEnv) (gm : String → String → Bool)
    (cp : String → List Char → List (List String)) (sty : List Char → GgStyle)
    (fn nm s1 s2 : String) (code : List Char) (b1 b2 : Bool)
    (objects : Option (List String)) (args : List String) (n1 n2 : Nat)
    (fno : Option String) :
    handle_create_r_file ⟨none, sf, pf⟩ fs ctx fn b1 b2 = (.err noWorkdirErr, fs) ∧
    handle_rename_r_file ⟨none, sf, pf⟩ fs ctx s1 s2 b1 =
      (.err noWorkdirErr, fs, ⟨none, sf, pf⟩) ∧
    handle_set_primary_file ⟨none, sf, pf⟩ fs ctx fn =
      (.err noWorkdirErr, fs, ⟨none, sf, pf⟩) ∧
    handle_append_r_code ⟨none, sf, pf⟩ fs ctx code fno b1 = (.err noWorkdirErr, fs) ∧
    handle_write_r_code ⟨none, sf, pf⟩ fs ctx code fno b1 b2 = (.err noWorkdirErr, fs) ∧
    handle_run_r_script ⟨none, sf, pf⟩ fs env fsA fno args n1 b1 =
      (.err noWorkdirErr, fs) ∧
    handle_run_r_expression ⟨none, sf, pf⟩ fs env fsA nm n1 = (.err noWorkdirErr, fs) ∧
    handle_list_exports ⟨none, sf, pf⟩ fs gm s1 s2 b1 n1 = .err noWorkdirErr ∧
    handle_read_export ⟨none, sf, pf⟩ fs nm n1 b1 b2 = (.err noWorkdirErr, []) ∧
    handle_preview_table ⟨none, sf, pf⟩ fs cp nm s1 n1 = .err noWorkdirErr ∧
    handle_ggplot_style_check ⟨none, sf, pf⟩ fs sty code = .err noWorkdirErr ∧
    handle_inspect_r_objects ⟨none, sf, pf⟩ fs env objects n1 n2 = .err noWorkdirErr ∧
    handle_list_r_files ⟨none, sf, pf⟩ fs = .err noWorkdirErr ∧
    (handle_get_state ⟨none, sf, pf⟩ fs renv).isOk = true ∧
    (handle_which_r renv).errCode ≠ some "NO_WORKDIR" := by
  refine ⟨rfl, rfl, rfl, rfl, rfl, rfl, rfl, rfl, rfl, rfl, rfl, rfl, rfl, rfl, ?_⟩
  cases renv with
  | mk rs r => cases rs <;> cases r <;> simp [handle_which_r, Resp.errCode]

/-- The Sandbox Guard rejects whenever the candidate's resolution lands
outside the workdir or fails. -/
theorem is_safe_path_false_of_outside (srv : Srv) (fs : Fs) (p : FPath) (wd : FPath)
    (hwd : srv.workdir = some wd) (h : outsideRoot wd (resolvePath fs p) = true) :
    is_safe_path srv fs p = false := by
  unfold is_safe_path
  rw [hwd]
  match hr : resolvePath fs p with
  | none => rfl
  | some r =>
    rw [hr] at h
    unfold outsideRoot at h
    simpa using h

/-- Claim C1 (counterexample): a requested name containing a `../` segment
is not rejected by the sandbox — the guard answers `true` for `a/../b`.
With the intermediate directory `/ws/a` present, `create_r_file` succeeds
and creates the file inside the root at the OS-resolved location
`/ws/b.R`; with `/ws/a` absent, the write itself fails and the handler
returns `CREATE_ERROR` with nothing mutated.  In neither situation does the
operation return the `UNSAFE_PATH` failure the claim requires for every
`../`-containing name. -/
theorem c1_counterexample :
    joinPath wsRoot (ensureRExt "a/../b") = ["ws", "a", "..", "b.R"] ∧
    is_safe_path srvBound fsWithSubdir ["ws", "a", "..", "b.R"] = true ∧
    (handle_create_r_file srvBound fsWithSubdir ctx0 "a/../b" false true).1.isOk = true ∧
    (handle_create_r_file srvBound fsWithSubdir ctx0 "a/../b" false true).2.readData
        ["ws", "b.R"] = some (.bytes R_SCAFFOLD) ∧
    fsWithSubdir.readData ["ws", "b.R"] = none ∧
    (handle_create_r_file srvBound fsBase ctx0 "a/../b" false true).1.errCode =
      some "CREATE_ERROR" ∧
    (handle_create_r_file srvBound fsBase ctx0 "a/../b" false true).2 = fsBase :=
  ⟨by decide, by decide, by decide, by decide, by decide, by decide, by decide⟩

/-- Claim C1 (amended): for every candidate path joined from the root and a
requested name, if the resolution of the candidate (through `..` segments
and symlinks) fails or lands outside the root, then `is_safe_path` returns
`false` and the operation returns `UNSAFE_PATH` — `create_r_file` without
touching the filesystem, `read_export` without reading any path. -/
theorem c1_amended (srv : Srv) (fs : Fs) (ctx : Ctx) (wd : FPath)
    (filename name : String) (overwrite scaffold as_text encOk : Bool) (max_bytes : Nat)
    (hwd : srv.workdir = some wd) (hex : fs.pathExists wd = true)
    (hC : outsideRoot wd (resolvePath fs (joinPath wd (ensureRExt filename))) = true)
    (hR : outsideRoot wd (resolvePath fs (joinPath wd name)) = true) :
    is_safe_path srv fs (joinPath wd (ensureRExt filename)) = false ∧
    handle_create_r_file srv fs ctx filename overwrite scaffold =
      (.err (unsafePathErr (ensureRExt filename)), fs) ∧
    is_safe_path srv fs (joinPath wd name) = false ∧
    handle_read_export srv fs name max_bytes as_text encOk =
      (.err { code := "UNSAFE_PATH"
              message := "File path " ++ name ++ " is outside working directory" },
        []) := by
  have hsafe1 := is_safe_path_false_of_outside srv fs _ wd hwd hC
  have hsafe2 := is_safe_path_false_of_outside srv fs _ wd hwd hR
  have hguard : ensure_workdir_set srv fs = .ok wd := by
    simp [ensure_workdir_set, hwd, hex]
  refine ⟨hsafe1, ?_, hsafe2, ?_⟩
  · simp [handle_create_r_file, hguard, hsafe1]
  · simp [handle_read_export, hguard, hsafe2]

/-- Witness for C1 (amended) at a `..`-escaping name and at a symlink that
leaves the root. -/
theorem c1_witness :
    (is_safe_path srvBound fsBase (joinPath wsRoot (ensureRExt "../secret")) = false ∧
      handle_create_r_file srvBound fsBase ctx0 "../secret" false true =
        (.err (unsafePathErr (ensureRExt "../secret")), fsBase) ∧
      is_safe_path srvBound fsBase (joinPath wsRoot "../etc/passwd") = false ∧
      handle_read_export srvBound fsBase "../etc/passwd" 2000000 true true =
        (.err { code := "UNSAFE_PATH"
                message := "File path " ++ "../etc/passwd" ++
                  " is outside working directory" }, [])) ∧
    (is_safe_path srvBound fsWithLink (joinPath wsRoot "lnk/x") = false ∧
      handle_read_export srvBound fsWithLink "lnk/x" 2000000 true true =
        (.err { code := "UNSAFE_PATH"
                message := "File path " ++ "lnk/x" ++
                  " is outside working directory" }, [])) :=
  ⟨c1_amended srvBound fsBase ctx0 wsRoot "../secret" "../etc/passwd" false true true true
      2000000 rfl (by decide) (by decide) (by decide),
    (fun h => ⟨h.2.2.1, h.2.2.2⟩)
      (c1_amended srvBound fsWithLink ctx0 wsRoot "../z" "lnk/x" false true true true
        2000000 rfl (by decide) (by decide) (by decide))⟩

/-- The optional trailing newline cannot reintroduce an arrow. -/
theorem containsArrow_adjustCode (nl : Bool) (s : List Char) :
    containsArrow (adjustCode nl (replaceArrow s)) = false := by
  unfold adjustCode
  split
  · rw [containsArrow_append_single _ _ (by decide)]
    exact containsArrow_replaceArrow s
  · exact containsArrow_replaceArrow s

/-- Content written by `handle_append_r_code`: the prior content (newline
padded) followed by the rewritten, newline-padded code. -/
theorem append_r_code_content (srv : Srv) (fs : Fs) (ctx : Ctx) (code : List Char)
    (filename? : Option String) (ensure_nl : Bool) (wd : FPath)
    (hwd : srv.workdir = some wd) (hex : fs.pathExists wd = true)
    (hsafe : is_safe_path srv fs
      (joinPath wd (ensureRExt (filename?.getD srv.primary_file))) = true)
    (hfile : fs.pathExists
      (joinPath wd (ensureRExt (filename?.getD srv.primary_file))) = true) :
    (handle_append_r_code srv fs ctx code filename? ensure_nl).2.readData
        (joinPath wd (ensureRExt (filename?.getD srv.primary_file))) =
      some (.bytes
        (adjustExisting
            (((fs.readData
                (joinPath wd (ensureRExt (filename?.getD srv.primary_file)))).getD
              (.bytes [])).chars) ++
          adjustCode ensure_nl (replaceArrow code))) := by
  have hguard : ensure_workdir_set srv fs = .ok wd := by
    simp [ensure_workdir_set, hwd, hex]
  simp only [handle_append_r_code, hguard, hsafe, hfile, Bool.true_eq_false, if_false,
    applyAssignRewrite_eq]
  unfold Fs.readData
  rw [lookupFile_write_self]
  rfl

/-- Content written by `handle_write_r_code`: the rewritten code, with the
scaffold prepended exactly when the header flag is set and the rewritten
code does not start with `#`. -/
theorem write_r_code_content (srv : Srv) (fs : Fs) (ctx : Ctx) (code : List Char)
    (filename? : Option String) (overwrite flag : Bool) (wd : FPath)
    (hwd : srv.workdir = some wd) (hex : fs.pathExists wd = true)
    (hsafe : is_safe_path srv fs
      (joinPath wd (ensureRExt (filename?.getD srv.primary_file))) = true)
    (hnew : fs.pathExists
      (joinPath wd (ensureRExt (filename?.getD srv.primary_file))) = false)
    (havoid : avoids (joinPath wd (ensureRExt (filename?.getD srv.primary_file)))
      srv.state_file = true) :
    (handle_write_r_code srv fs ctx code filename? overwrite flag).2.readData
        (joinPath wd (ensureRExt (filename?.getD srv.primary_file))) =
      some (.bytes
        (if flag && !(startsWithHash (replaceArrow code)) then
          R_SCAFFOLD ++ '\n' :: replaceArrow code
        else replaceArrow code)) := by
  have hguard : ensure_workdir_set srv fs = .ok wd := by
    simp [ensure_workdir_set, hwd, hex]
  simp only [handle_write_r_code, hguard, hsafe, hnew, Bool.true_eq_false, if_false,
    Bool.false_and, Bool.false_eq_true, applyAssignRewrite_eq]
  unfold Fs.readData
  rw [lookupFile_save_state _ _ _ _ _ _ havoid, lookupFile_write_self]
  rfl

/-- Claim C9: `append_r_code` and `write_r_code` persist the rewritten code
in which every occurrence of `<-` (string literals and comments included —
the rewrite is position-blind) has been replaced by `=`: no arrow survives
in the appended/written code, and whenever the supplied code contained an
arrow the persisted bytes differ from the supplied bytes. -/
theorem c9_assignment_rewrite (srv : Srv) (fs : Fs) (ctx : Ctx) (code : List Char)
    (filenameA? filenameW? : Option String) (ensure_nl overwrite flag : Bool)
    (wd : FPath)
    (hwd : srv.workdir = some wd) (hex : fs.pathExists wd = true)
    (hsafeA : is_safe_path srv fs
      (joinPath wd (ensureRExt (filenameA?.getD srv.primary_file))) = true)
    (hfileA : fs.pathExists
      (joinPath wd (ensureRExt (filenameA?.getD srv.primary_file))) = true)
    (hsafeW : is_safe_path srv fs
      (joinPath wd (ensureRExt (filenameW?.getD srv.primary_file))) = true)
    (hnewW : fs.pathExists
      (joinPath wd (ensureRExt (filenameW?.getD srv.primary_file))) = false)
    (havoidW : avoids (joinPath wd (ensureRExt (filenameW?.getD srv.primary_file)))
      srv.state_file = true) :
    ((handle_append_r_code srv fs ctx code filenameA? ensure_nl).2.readData
        (joinPath wd (ensureRExt (filenameA?.getD srv.primary_file))) =
      some (.bytes
        (adjustExisting
            (((fs.readData
                (joinPath wd (ensureRExt (filenameA?.getD srv.primary_file)))).getD
              (.bytes [])).chars) ++
          adjustCode ensure_nl (replaceArrow code))) ∧
      containsArrow (adjustCode ensure_nl (replaceArrow code)) = false) ∧
    ((handle_write_r_code srv fs ctx code filenameW? overwrite flag).2.readData
        (joinPath wd (ensureRExt (filenameW?.getD srv.primary_file))) =
      some (.bytes
        (if flag && !(startsWithHash (replaceArrow code)) then
          R_SCAFFOLD ++ '\n' :: replaceArrow code
        else replaceArrow code)) ∧
      containsArrow (replaceArrow code) = false) ∧
    (containsArrow code = true → replaceArrow code ≠ code) :=
  ⟨⟨append_r_code_content srv fs ctx code filenameA? ensure_nl wd hwd hex hsafeA hfileA,
      containsArrow_adjustCode ensure_nl code⟩,
    ⟨write_r_code_content srv fs ctx code filenameW? overwrite flag wd hwd hex hsafeW
        hnewW havoidW,
      containsArrow_replaceArrow code⟩,
    replaceArrow_ne_self code⟩

/-- Witness for C9: code whose only arrows sit inside a string literal and a
comment is still rewritten before being persisted. -/
theorem c9_witness :
    ((handle_append_r_code srvBound fsBase ctx0 ("s = \"a <- b\" # c <- d").data none
        true).2.readData ["ws", "agent.R"] =
      some (.bytes ("x = 1\ns = \"a = b\" # c = d\n").data) ∧
      (handle_write_r_code srvBound fsBase ctx0 ("s = \"a <- b\" # c <- d").data
        (some "fresh") false false).2.readData ["ws", "fresh.R"] =
      some (.bytes ("s = \"a = b\" # c = d").data)) ∧
    replaceArrow ("s = \"a <- b\" # c <- d").data ≠ ("s = \"a <- b\" # c <- d").data := by
  have h := c9_assignment_rewrite srvBound fsBase ctx0 ("s = \"a <- b\" # c <- d").data
    none (some "fresh") true false false wsRoot rfl (by decide) (by decide) (by decide)
    (by decide) (by decide) (by decide)
  refine ⟨⟨?_, ?_⟩, h.2.2 (by decide)⟩
  · rw [show (["ws", "agent.R"] : FPath) =
      joinPath wsRoot (ensureRExt ((none : Option String).getD srvBound.primary_file))
      from by decide]
    rw [h.1.1]
    decide
  · rw [show (["ws", "fresh.R"] : FPath) =
      joinPath wsRoot (ensureRExt ((some "fresh").getD srvBound.primary_file))
      from by decide]
    rw [h.2.1.1]
    decide

/-- Claim C10: `write_r_code` with the scaffold-header flag prepends the
scaffold template exactly when the supplied code does not start with `#`;
when the code starts with `#` the persisted content is exactly the
assignment-rewritten code, whatever the flag. -/
theorem c10_scaffold_header (srv : Srv) (fs : Fs) (ctx : Ctx) (code : List Char)
    (filename? : Option String) (overwrite flag : Bool) (wd : FPath)
    (hwd : srv.workdir = some wd) (hex : fs.pathExists wd = true)
    (hsafe : is_safe_path srv fs
      (joinPath wd (ensureRExt (filename?.getD srv.primary_file))) = true)
    (hnew : fs.pathExists
      (joinPath wd (ensureRExt (filename?.getD srv.primary_file))) = false)
    (havoid : avoids (joinPath wd (ensureRExt (filename?.getD srv.primary_file)))
      srv.state_file = true) :
    (startsWithHash code = true →
      (handle_write_r_code srv fs ctx code filename? overwrite flag).2.readData
          (joinPath wd (ensureRExt (filename?.getD srv.primary_file))) =
        some (.bytes (replaceArrow code))) ∧
    (flag = true → startsWithHash code = false →
      (handle_write_r_code srv fs ctx code filename? overwrite flag).2.readData
          (joinPath wd (ensureRExt (filename?.getD srv.primary_file))) =
        some (.bytes (R_SCAFFOLD ++ '\n' :: replaceArrow code))) := by
  have hc := write_r_code_content srv fs ctx code filename? overwrite flag wd hwd hex
    hsafe hnew havoid
  rw [startsWithHash_replaceArrow] at hc
  constructor
  · intro hhash
    rw [hc, hhash]
    simp
  · intro hflag hhash
    rw [hc, hhash, hflag]
    simp

/-- Witness for C10: a leading comment suppresses the scaffold even with the
flag set; non-comment code with the flag set receives the scaffold. -/
theorem c10_witness :
    (handle_write_r_code srvBound fsBase ctx0 ("# t\nx <- 1").data (some "fresh") false
        true).2.readData ["ws", "fresh.R"] =
      some (.bytes (replaceArrow ("# t\nx <- 1").data)) ∧
    (handle_write_r_code srvBound fsBase ctx0 ("x <- 1").data (some "fresh") false
        true).2.readData ["ws", "fresh.R"] =
      some (.bytes (R_SCAFFOLD ++ '\n' :: replaceArrow ("x <- 1").data)) := by
  have h1 := c10_scaffold_header srvBound fsBase ctx0 ("# t\nx <- 1").data (some "fresh")
    false true wsRoot rfl (by decide) (by decide) (by decide) (by decide)
  have h2 := c10_scaffold_header srvBound fsBase ctx0 ("x <- 1").data (some "fresh")
    false true wsRoot rfl (by decide) (by decide) (by decide) (by decide)
  have hp : (["ws", "fresh.R"] : FPath) =
      joinPath wsRoot (ensureRExt ((some "fresh").getD srvBound.primary_file)) := by decide
  constructor
  · rw [hp]
    exact h1.1 (by decide)
  · rw [hp]
    exact h2.2 rfl (by decide)

/-- Claim C6: the run diff reports a name exactly when it is present in the
after-snapshot and is either absent from the before-snapshot or carries a
strictly greater timestamp; a name absent from the after-snapshot (a
deletion) is never reported; and on before `{a: t0}`, after
`{a: t1 > t0, b: t2}` the reported set is exactly `{a, b}`. -/
theorem c6_diff_rule (before after : List (String × Int))
    (hnd : (after.map Prod.fst).Nodup) :
    (∀ name,
      (name ∈ (diffNewModified before after).1 ∨ name ∈ (diffNewModified before after).2) ↔
        ∃ ta, lookupSnap after name = some ta ∧
          (lookupSnap before name = none ∨
            ∃ tb, lookupSnap before name = some tb ∧ ta > tb)) ∧
    (∀ name, lookupSnap after name = none →
      ¬ (name ∈ (diffNewModified before after).1 ∨
          name ∈ (diffNewModified before after).2)) ∧
    (∀ t0 t1 t2 : Int, t1 > t0 →
      diffNewModified [("a", t0)] [("a", t1), ("b", t2)] = (["b"], ["a"])) := by
  refine ⟨fun name => diff_mem_iff before after hnd name, ?_, ?_⟩
  · intro name hnone hmem
    rcases (diff_mem_iff before after hnd name).mp hmem with ⟨ta, hta, -⟩
    rw [hnone] at hta
    exact Option.noConfusion hta
  · intro t0 t1 t2 ht
    have ha : lookupSnap [("a", t0)] "a" = some t0 := by
      rw [lookupSnap_cons, if_pos rfl]
    have hb : lookupSnap [("a", t0)] "b" = none := by
      rw [lookupSnap_cons, if_neg (by decide)]
      rfl
    rw [diff_cons_mod _ _ _ _ _ ha ht, diff_cons_new _ _ _ _ hb]
    rfl

/-- Witness for C6 at concrete snapshots. -/
theorem c6_witness :
    diffNewModified [("a", 1)] [("a", 2), ("b", 7)] = (["b"], ["a"]) :=
  (c6_diff_rule [("a", 1)] [("a", 2), ("b", 7)] (by decide)).2.2 1 2 7 (by decide)

/-- Claim C5 (code defect): the object names are spliced into the generated
interpreter request with no escaping, so two different requested name lists
can produce structurally identical request text — a name containing a double
quote breaks out of the quoting. -/
theorem c5_name_injection :
    buildInspectExpr (some ["a\", \"b"]) 1 = buildInspectExpr (some ["a", "b"]) 1 ∧
    (["a\", \"b"] : List String) ≠ ["a", "b"] := by
  constructor
  · rfl
  · decide

end MCPR
